import Mathlib

/-!
Verification of the MoltSales four-phase sales-prompt router
(`src/router.py`, `src/api.py`) against its specification.

The generative-language model (the Generation Client) and the local
vector store are external collaborators: they are modelled as oracle
parameters.  A structured-generation call is a function from the prompt
string to `Except String α`, where the error case models both network
failure and a response that fails pydantic schema validation; a free-text
call is `String → Except String String`.  The vector store query is
modelled by its documented semantics: filter the stored records by the
category condition, rank them by a caller-supplied relevance score
(abstracting hybrid dense+sparse fusion), and truncate to the limit.

Machine state is the pair of JSON blobs the router loads at startup
(`self.category_summary`, `self.prompts`); each phase method is embedded
in state-passing style, returning the resulting value together with the
state of the router object after the call.
-/

namespace MoltSales

/-- Minimal JSON values, as needed for the request bodies and the
serialisations the router embeds into model prompts. -/
inductive Json where
  | null : Json
  | str : String → Json
  | arr : List Json → Json
  | obj : List (String × Json) → Json

/-- One prompt template of the corpus (`data/mvp_prompts.json`): the
fields the router reads.  `metadata` is the free-form situation/task
dictionary (string keys and values in the corpus). -/
structure PromptTemplate where
  id : String
  category : String
  use_case : String
  «variables» : List String
  metadata : List (String × String)
  template : String
  deriving DecidableEq, Repr

/-- One level entry of `data/category_summary.json`, as produced by
`scripts/generate_category_summary.py`. -/
structure CategoryLevel where
  categories : List String
  summary : String
  example_use_cases : List String
  deriving DecidableEq, Repr

/-- The category index: level name mapped to its entry. -/
abbrev CategorySummary := List (String × CategoryLevel)

/-- Caller-supplied session context: a flat string-to-string map
(`Dict[str, str]` at the HTTP boundary). -/
abbrev SessionContext := List (String × String)

/-- Pydantic model `DispatcherDecision` (router.py lines 14-16). -/
structure DispatcherDecision where
  categories : List String
  reasoning : String
  deriving DecidableEq, Repr

/-- Pydantic model `SpecialistDecision` (router.py lines 18-21). -/
structure SpecialistDecision where
  selected_prompt_id : String
  missing_variables : List String
  clarifying_question : String
  deriving DecidableEq, Repr

/-- The state a `SalesPromptRouter` object holds after `load_data`:
the category index and the prompt corpus.  (The Gemini client and the
Qdrant handle are modelled as oracle parameters of each phase.) -/
structure RouterState where
  category_summary : CategorySummary
  prompts : List PromptTemplate
  deriving DecidableEq, Repr

/-- All category names appearing in the loaded category summary:
the known taxonomy. -/
def taxonomy (cs : CategorySummary) : List String :=
  cs.flatMap (fun kv => kv.2.categories)

/-- Keys of a session context. -/
def ctxKeys (ctx : SessionContext) : List String := ctx.map (fun kv => kv.1)

/-- Set difference on lists of strings (exact string match, no
normalisation). -/
def listDiff (xs ys : List String) : List String :=
  xs.filter (fun x => decide (x ∉ ys))

/-- Order-independent set equality of two string lists. -/
def sameSet (xs ys : List String) : Prop :=
  (∀ a ∈ xs, a ∈ ys) ∧ (∀ a ∈ ys, a ∈ xs)

instance (xs ys : List String) : Decidable (sameSet xs ys) := by
  unfold sameSet; infer_instance

-- JSON rendering (json.dumps; whitespace and string escaping abstracted).

mutual

/-- Render a JSON value to a string, mirroring `json.dumps`. -/
def Json.render : Json → String
  | .null => "null"
  | .str s => "\"" ++ s ++ "\""
  | .arr xs => "[" ++ Json.renderList xs ++ "]"
  | .obj kvs => "\x7b" ++ Json.renderObj kvs ++ "\x7d"

def Json.renderList : List Json → String
  | [] => ""
  | [x] => Json.render x
  | x :: xs => Json.render x ++ ", " ++ Json.renderList xs

def Json.renderObj : List (String × Json) → String
  | [] => ""
  | [kv] => "\"" ++ kv.1 ++ "\": " ++ Json.render kv.2
  | kv :: kvs => "\"" ++ kv.1 ++ "\": " ++ Json.render kv.2 ++ ", " ++ Json.renderObj kvs

end

/-- Encode a string-to-string dictionary. -/
def strMapToJson (m : List (String × String)) : Json :=
  Json.obj (m.map (fun kv => (kv.1, Json.str kv.2)))

/-- Encode a prompt template back to its corpus JSON shape. -/
def PromptTemplate.toJson (p : PromptTemplate) : Json :=
  Json.obj [("id", Json.str p.id),
            ("category", Json.str p.category),
            ("use_case", Json.str p.use_case),
            ("variables", Json.arr (p.«variables».map Json.str)),
            ("metadata", strMapToJson p.metadata),
            ("template", Json.str p.template)]

/-- Encode one category level. -/
def CategoryLevel.toJson (c : CategoryLevel) : Json :=
  Json.obj [("categories", Json.arr (c.categories.map Json.str)),
            ("summary", Json.str c.summary),
            ("example_use_cases", Json.arr (c.example_use_cases.map Json.str))]

/-- Encode the whole category summary. -/
def categorySummaryToJson (cs : CategorySummary) : Json :=
  Json.obj (cs.map (fun kv => (kv.1, kv.2.toJson)))

-- Prompt construction (the f-strings of router.py; fixed instruction
-- text condensed, all data dependencies preserved).

/-- The phase-1 request content: system prompt embedding the full
category summary, followed by the user query (router.py lines 99-109). -/
def mkPhase1Prompt (summary : CategorySummary) (user_query : String) : String :=
  "You are the Routing Dispatcher for a Sales AI Agent. " ++
  "Review the user intent and select the TOP 2 most relevant categories from the catalog.\n" ++
  "Catalog Data:\n" ++ (categorySummaryToJson summary).render ++
  "\n\nUser Query:\n" ++ user_query

/-- The phase-3 request content: system prompt embedding the session
context and the candidate prompts, followed by the user query
(router.py lines 165-184). -/
def mkPhase3Prompt (session_context : SessionContext)
    (top_3_prompts : List PromptTemplate) (user_query : String) : String :=
  "You are the Sales Implementation Specialist. You have 3 prompt options to fulfill the user intent.\n" ++
  "User Context (Known Data):\n" ++ (strMapToJson session_context).render ++
  "\nAvailable Prompts:\n" ++ (Json.arr (top_3_prompts.map PromptTemplate.toJson)).render ++
  "\nInstructions: select the single best id; NONE only if all are irrelevant; " ++
  "report variables missing from the context; ask a clarifying question when variables are missing or NONE was selected." ++
  "\n\nUser Query:\n" ++ user_query

/-- The phase-4 request content: copywriter system prompt embedding the
template metadata, the session context and the template body
(router.py lines 222-237). -/
def mkPhase4Prompt (metadata : List (String × String))
    (session_context : SessionContext) (template : String) : String :=
  "You are a world-class B2B Enterprise Sales Copywriter. " ++
  "Take the provided template and fulfill it using the Known Context.\n" ++
  "Template constraints: " ++ (strMapToJson metadata).render ++
  "\nKnown Context: " ++ (strMapToJson session_context).render ++
  "\nTemplate to fulfill:\n" ++ template

-- The four phase methods, embedded in state-passing style.  None of the
-- method bodies in router.py assigns to any attribute of self, so each
-- embedding returns the argument state unchanged alongside the value
-- (or the propagated error).

/-- `SalesPromptRouter.phase_1_dispatcher` (router.py lines 95-120):
builds the dispatcher prompt from the loaded category summary, issues
one structured generation call, and returns the parsed decision
unchanged.  `client` is the Generation Client oracle. -/
def phase_1_dispatcher (client : String → Except String DispatcherDecision)
    (user_query : String) (s : RouterState) :
    Except String DispatcherDecision × RouterState :=
  (client (mkPhase1Prompt s.category_summary user_query), s)

/-- The documented semantics of `QdrantClient.query` with a `MatchAny`
category filter: restrict the stored records to those whose category is
in `cats`, rank them best-first by the relevance score, and return at
most `limit` of them. -/
def qdrantQuery (stored : List PromptTemplate) (score : PromptTemplate → Nat)
    (cats : List String) (limit : Nat) : List PromptTemplate :=
  (((stored.filter (fun p => decide (p.category ∈ cats))).mergeSort
      (fun a b => decide (score b ≤ score a))).take limit)

/-- `SalesPromptRouter.phase_2_search` (router.py lines 125-156):
queries the local vector store with a hard category filter and
`limit=3`, and returns the stored prompt records of the hits.  `score`
is the hybrid relevance oracle (a function of the query text).  This
embedding gives the data semantics of a successful store call;
`phase_2_search_run` additionally represents the failure path of the
underlying store call. -/
def phase_2_search (score : String → PromptTemplate → Nat) (user_query : String)
    (top_categories : List String) (s : RouterState) :
    List PromptTemplate × RouterState :=
  (qdrantQuery s.prompts (score user_query) top_categories 3, s)

/-- `SalesPromptRouter.phase_2_search` with the Retrieval Store failure
path represented: the underlying `qdrant.query` call either raises —
`fail` answers the exception message; the spec names this error kind
RetrievalUnavailable and makes it fatal to the request — or succeeds
with the documented filter/rank/truncate semantics of
`phase_2_search`.  The state is unchanged on both paths. -/
def phase_2_search_run (fail : String → List String → Option String)
    (score : String → PromptTemplate → Nat) (user_query : String)
    (top_categories : List String) (s : RouterState) :
    Except String (List PromptTemplate) × RouterState :=
  match fail user_query top_categories with
  | some e => (Except.error e, s)
  | none => (Except.ok (phase_2_search score user_query top_categories s).1, s)

/-- `SalesPromptRouter.phase_3_specialist` (router.py lines 161-205):
builds the specialist prompt from the session context and the candidate
list, issues one structured generation call, and returns the parsed
decision unchanged (both the NONE branch and the selected branch only
print). -/
def phase_3_specialist (client : String → Except String SpecialistDecision)
    (user_query : String) (top_3_prompts : List PromptTemplate)
    (session_context : SessionContext) (s : RouterState) :
    Except String SpecialistDecision × RouterState :=
  (client (mkPhase3Prompt session_context top_3_prompts user_query), s)

/-- `SalesPromptRouter.phase_4_generator` (router.py lines 210-246):
looks the template up by exact id; when absent, returns the literal
error string (an ordinary return value, not an exception) without
calling the Generation Client; otherwise issues one free-text
generation call and returns its text. -/
def phase_4_generator (client : String → Except String String)
    (prompt_id : String) (session_context : SessionContext) (s : RouterState) :
    Except String String × RouterState :=
  match s.prompts.find? (fun p => p.id == prompt_id) with
  | none => (Except.ok "Error: Could not find prompt in database.", s)
  | some target =>
      (client (mkPhase4Prompt target.metadata session_context target.template), s)

-- The HTTP facade (src/api.py).  FastAPI validates each request body
-- against the pydantic request model before the handler runs; a body
-- that fails validation is rejected by the framework with HTTP 422
-- (RequestValidationError) and never reaches the handler.  Inside each
-- handler, every exception is caught and re-raised as
-- HTTPException(status_code=500, detail=str(e)).

/-- Field lookup in a JSON object (first binding wins; request bodies
are assumed free of duplicate keys). -/
def Json.getField? : Json → String → Option Json
  | .obj kvs, k => (kvs.find? (fun kv => kv.1 == k)).map (fun kv => kv.2)
  | _, _ => none

/-- Pydantic `str` validation: accept exactly JSON strings. -/
def Json.getStr? : Json → Option String
  | .str s => some s
  | _ => none

/-- Pydantic `List[str]` validation. -/
def Json.getStrList? : Json → Option (List String)
  | .arr xs => xs.mapM Json.getStr?
  | _ => none

/-- Pydantic `Dict[str, str]` validation. -/
def Json.getStrMap? : Json → Option (List (String × String))
  | .obj kvs => kvs.mapM (fun kv => (Json.getStr? kv.2).map (fun v => (kv.1, v)))
  | _ => none

/-- Decode one prompt template from its corpus JSON shape.  (Pydantic
itself validates the `top3` elements only as `Dict[str, Any]`; we model
the documented PromptTemplate shape of section 6 of the spec, which is
the domain on which the phase-3 handler is specified.) -/
def PromptTemplate.parse (j : Json) : Option PromptTemplate := do
  let id ← (j.getField? "id").bind Json.getStr?
  let category ← (j.getField? "category").bind Json.getStr?
  let use_case ← (j.getField? "use_case").bind Json.getStr?
  let vars ← (j.getField? "variables").bind Json.getStrList?
  let metadata ← (j.getField? "metadata").bind Json.getStrMap?
  let template ← (j.getField? "template").bind Json.getStr?
  pure ⟨id, category, use_case, vars, metadata, template⟩

/-- Pydantic request model `Phase1Request` (api.py lines 36-37). -/
structure Phase1Request where
  query : String
  deriving DecidableEq, Repr

/-- Validate a phase-1 request body. -/
def Phase1Request.parse (j : Json) : Option Phase1Request := do
  let q ← (j.getField? "query").bind Json.getStr?
  pure ⟨q⟩

/-- Pydantic request model `Phase2Request` (api.py lines 39-41). -/
structure Phase2Request where
  query : String
  categories : List String
  deriving DecidableEq, Repr

/-- Validate a phase-2 request body. -/
def Phase2Request.parse (j : Json) : Option Phase2Request := do
  let q ← (j.getField? "query").bind Json.getStr?
  let cats ← (j.getField? "categories").bind Json.getStrList?
  pure ⟨q, cats⟩

/-- Pydantic request model `Phase3Request` (api.py lines 43-46). -/
structure Phase3Request where
  query : String
  top3 : List PromptTemplate
  context : SessionContext
  deriving DecidableEq, Repr

/-- Validate a phase-3 request body. -/
def Phase3Request.parse (j : Json) : Option Phase3Request := do
  let q ← (j.getField? "query").bind Json.getStr?
  let top3Json ← j.getField? "top3"
  let top3 ← match top3Json with
             | .arr xs => xs.mapM PromptTemplate.parse
             | _ => none
  let ctx ← (j.getField? "context").bind Json.getStrMap?
  pure ⟨q, top3, ctx⟩

/-- Is this value a JSON object (a dict at the pydantic level)? -/
def Json.isObj : Json → Bool
  | .obj _ => true
  | _ => false

/-- The validation FastAPI actually performs on a phase-3 body, as
declared by the pydantic model (api.py lines 43-46): `query` a string,
`top3` a list of arbitrary JSON objects (`List[Dict[str, Any]]`), and
`context` a string-to-string map.  `Phase3Request.parse` is stricter —
it additionally requires the documented PromptTemplate shape of the
`top3` elements — so every body this check rejects is also rejected by
`Phase3Request.parse`. -/
def phase3BodyPydanticValid (j : Json) : Bool :=
  (match (j.getField? "query").bind Json.getStr? with
   | some _ => true
   | none => false)
  && (match j.getField? "top3" with
      | some (Json.arr xs) => xs.all Json.isObj
      | _ => false)
  && (match (j.getField? "context").bind Json.getStrMap? with
      | some _ => true
      | none => false)

/-- Pydantic request model `Phase4Request` (api.py lines 48-50). -/
structure Phase4Request where
  promptId : String
  context : SessionContext
  deriving DecidableEq, Repr

/-- Validate a phase-4 request body. -/
def Phase4Request.parse (j : Json) : Option Phase4Request := do
  let pid ← (j.getField? "promptId").bind Json.getStr?
  let ctx ← (j.getField? "context").bind Json.getStrMap?
  pure ⟨pid, ctx⟩

/-- Outcome of one HTTP call: a 200 payload, a 422 framework rejection
of the request body, or a 500 handler failure carrying the error
message as its detail body. -/
inductive HttpResult (α : Type) where
  | ok : α → HttpResult α
  | validationError : String → HttpResult α
  | serverError : String → HttpResult α
  deriving DecidableEq, Repr

/-- The HTTP status code of an outcome. -/
def HttpResult.status : HttpResult α → Nat
  | .ok _ => 200
  | .validationError _ => 422
  | .serverError _ => 500

/-- `api_phase_1` (api.py lines 52-62). -/
def api_phase_1 (client : String → Except String DispatcherDecision)
    (s : RouterState) (body : Json) : HttpResult DispatcherDecision :=
  match Phase1Request.parse body with
  | none => .validationError "Unprocessable Entity"
  | some req =>
      match (phase_1_dispatcher client req.query s).1 with
      | .error e => .serverError e
      | .ok d => .ok d

/-- `api_phase_2` (api.py lines 64-71): the except branch surfaces a
failure of the underlying store query as HTTP 500 carrying the
message. -/
def api_phase_2 (fail : String → List String → Option String)
    (score : String → PromptTemplate → Nat)
    (s : RouterState) (body : Json) : HttpResult (List PromptTemplate) :=
  match Phase2Request.parse body with
  | none => .validationError "Unprocessable Entity"
  | some req =>
      match (phase_2_search_run fail score req.query req.categories s).1 with
      | .error e => .serverError e
      | .ok tops => .ok tops

/-- Body of a successful phase-3 response (api.py lines 84-89). -/
structure Phase3Response where
  selected_prompt_id : String
  missing_variables : List String
  clarifying_question : String
  prompt : Option PromptTemplate
  deriving DecidableEq, Repr

/-- `api_phase_3` (api.py lines 73-92): runs the specialist, then looks
the selected prompt up among the supplied candidates (first match by
id) unless the sentinel NONE was selected. -/
def api_phase_3 (client : String → Except String SpecialistDecision)
    (s : RouterState) (body : Json) : HttpResult Phase3Response :=
  match Phase3Request.parse body with
  | none => .validationError "Unprocessable Entity"
  | some req =>
      match (phase_3_specialist client req.query req.top3 req.context s).1 with
      | .error e => .serverError e
      | .ok d =>
          let prompt : Option PromptTemplate :=
            if d.selected_prompt_id ≠ "NONE" then
              req.top3.find? (fun p => p.id == d.selected_prompt_id)
            else none
          .ok ⟨d.selected_prompt_id, d.missing_variables, d.clarifying_question, prompt⟩

/-- `api_phase_4` (api.py lines 94-101). -/
def api_phase_4 (client : String → Except String String)
    (s : RouterState) (body : Json) : HttpResult String :=
  match Phase4Request.parse body with
  | none => .validationError "Unprocessable Entity"
  | some req =>
      match (phase_4_generator client req.promptId req.context s).1 with
      | .error e => .serverError e
      | .ok out => .ok out

-- Concrete fixtures: a small router state and concrete oracle clients
-- used by witnesses and counterexamples.

/-- The ids of a candidate list. -/
def candidateIds (l : List PromptTemplate) : List String := l.map (fun p => p.id)

/-- A first-touch template with two variables. -/
def stP1 : PromptTemplate :=
  ⟨"P1", "Cold Outreach", "first touch email",
   ["prospect_name", "company"], [("S", "situation"), ("T", "task")],
   "Hi prospect_name at company, a short first-touch email."⟩

/-- A price-objection template with one variable. -/
def stP2 : PromptTemplate :=
  ⟨"P2", "Objection Handling", "price pushback reply",
   ["prospect_name"], [("S", "price objection"), ("T", "reply")],
   "Reply addressing the price concern for prospect_name."⟩

/-- A loaded router state: one category level, two templates. -/
def st0 : RouterState :=
  ⟨[("Level 1: Prospecting and Initial Outreach",
     ⟨["Cold Outreach", "Objection Handling"], "initial outreach work",
      ["first touch email", "price pushback reply"]⟩)],
   [stP1, stP2]⟩

/-- A specialist response selecting P1 but reporting a variable that is
neither required by P1 nor missing from the context. -/
def cexDecC1 : SpecialistDecision := ⟨"P1", ["bogus"], "why"⟩

/-- Generation Client returning `cexDecC1`. -/
def cexClientC1 : String → Except String SpecialistDecision := fun _ => Except.ok cexDecC1

/-- A context supplying both variables of P1. -/
def cexCtxC1 : SessionContext := [("prospect_name", "Sarah"), ("company", "Stripe")]

/-- A specialist response selecting the sentinel with an empty
clarifying question. -/
def cexDecC2 : SpecialistDecision := ⟨"NONE", [], ""⟩

/-- Generation Client returning `cexDecC2`. -/
def cexClientC2 : String → Except String SpecialistDecision := fun _ => Except.ok cexDecC2

/-- Generation Client answering with id X. -/
def c5ClientX : String → Except String SpecialistDecision := fun _ => Except.ok ⟨"X", [], ""⟩

/-- Generation Client answering with id Y. -/
def c5ClientY : String → Except String SpecialistDecision := fun _ => Except.ok ⟨"Y", [], ""⟩

/-- A dispatcher response with one category, absent from the taxonomy. -/
def cexDecC6 : DispatcherDecision := ⟨["Zebra"], "reasoning text"⟩

/-- Generation Client returning `cexDecC6`. -/
def cexClientC6 : String → Except String DispatcherDecision := fun _ => Except.ok cexDecC6

/-- A specialist response whose id is neither NONE nor a candidate id. -/
def cexDecC7 : SpecialistDecision := ⟨"BOGUS", [], "ask"⟩

/-- Generation Client returning `cexDecC7`. -/
def cexClientC7 : String → Except String SpecialistDecision := fun _ => Except.ok cexDecC7

/-- A free-text Generation Client that fails if it is ever reached. -/
def c4Client : String → Except String String :=
  fun _ => Except.error "generator client must not be reached"

/-- A phase-4 body naming an id absent from the corpus of `st0`. -/
def c4Body : Json := Json.obj [("promptId", Json.str "GHOST"), ("context", Json.obj [])]

/-- A failing dispatcher client. -/
def c8FailClient1 : String → Except String DispatcherDecision := fun _ => Except.error "boom1"

/-- A failing specialist client. -/
def c8FailClient3 : String → Except String SpecialistDecision := fun _ => Except.error "boom3"

/-- A failing free-text client. -/
def c8FailClient4 : String → Except String String := fun _ => Except.error "boom4"

/-- A concrete relevance score. -/
def wScore : String → PromptTemplate → Nat := fun _ p => p.id.length

/-- A Retrieval Store whose query call never fails. -/
def noFail : String → List String → Option String := fun _ _ => none

/-- A Retrieval Store whose query call raises. -/
def storeDown : String → List String → Option String :=
  fun _ _ => some "qdrant unavailable"

/-- A valid phase-1 body. -/
def c8Phase1Body : Json := Json.obj [("query", Json.str "q")]

/-- A valid phase-2 body. -/
def c8Phase2Body : Json :=
  Json.obj [("query", Json.str "q"), ("categories", Json.arr [Json.str "Cold Outreach"])]

/-- A valid phase-3 body. -/
def c8Phase3Body : Json :=
  Json.obj [("query", Json.str "q"), ("top3", Json.arr [stP1.toJson]), ("context", Json.obj [])]

/-- A valid phase-4 body naming the stored template P1. -/
def c8Phase4Body : Json := Json.obj [("promptId", Json.str "P1"), ("context", Json.obj [])]

/-- A specialist response selecting P2. -/
def cexDecC10 : SpecialistDecision := ⟨"P2", [], ""⟩

/-- Generation Client returning `cexDecC10`. -/
def c10Client : String → Except String SpecialistDecision := fun _ => Except.ok cexDecC10

/-- A phase-3 body carrying both templates and an empty context. -/
def c10Body : Json :=
  Json.obj [("query", Json.str "q"), ("top3", Json.arr [stP1.toJson, stP2.toJson]),
            ("context", Json.obj [])]

-- Theorems.

/-- Claim C1, counterexample: phase_3_specialist returns the parsed model
response unchanged, so a schema-valid response that selects candidate P1
while reporting the variable bogus is returned as the SpecialistDecision
even though the set difference between the variables of P1 and the
context keys is empty.  The claimed set equality fails on this output. -/
theorem c1_counterexample :
    (phase_3_specialist cexClientC1 "q" [stP1] cexCtxC1 st0).1 = Except.ok cexDecC1
  ∧ cexDecC1.selected_prompt_id = "P1"
  ∧ cexDecC1.selected_prompt_id ≠ "NONE"
  ∧ stP1.id = "P1"
  ∧ ¬ sameSet cexDecC1.missing_variables (listDiff stP1.«variables» (ctxKeys cexCtxC1)) :=
  ⟨rfl, rfl, by decide, rfl, by decide⟩

/-- Claim C1, amended: the missing_variables field of every
SpecialistDecision returned by phase_3_specialist is exactly the
missing_variables list of the Generation Client response; no code
computes or checks the set difference. -/
theorem c1_amended_missing_variables_passthrough
    (client : String → Except String SpecialistDecision) (q : String)
    (cands : List PromptTemplate) (ctx : SessionContext) (s : RouterState) :
    ((phase_3_specialist client q cands ctx s).1).map SpecialistDecision.missing_variables
      = (client (mkPhase3Prompt ctx cands q)).map SpecialistDecision.missing_variables := rfl

/-- Claim C2, counterexample: a schema-valid model response selecting the
sentinel NONE with an empty clarifying_question is returned unchanged,
violating the claimed only-if direction (sentinel selected, yet the
question is empty). -/
theorem c2_counterexample :
    (phase_3_specialist cexClientC2 "q" [stP1] [] st0).1 = Except.ok cexDecC2
  ∧ ¬ (cexDecC2.clarifying_question = ""
        ↔ (cexDecC2.missing_variables = [] ∧ cexDecC2.selected_prompt_id ≠ "NONE")) :=
  ⟨rfl, by decide⟩

/-- Claim C2, amended: the clarifying_question field of every
SpecialistDecision returned by phase_3_specialist is exactly the
clarifying_question of the Generation Client response; the emptiness
biconditional is instructed in the prompt text but not enforced by
code. -/
theorem c2_amended_clarifying_question_passthrough
    (client : String → Except String SpecialistDecision) (q : String)
    (cands : List PromptTemplate) (ctx : SessionContext) (s : RouterState) :
    ((phase_3_specialist client q cands ctx s).1).map SpecialistDecision.clarifying_question
      = (client (mkPhase3Prompt ctx cands q)).map SpecialistDecision.clarifying_question := rfl

/-- Claim C5, counterexample: phase_3_specialist invoked with an empty
candidate list does not fail; it issues the generation call and returns
the client decision (two different clients give two different ordinary
results, so the Generation Client is consulted). -/
theorem c5_counterexample :
    (phase_3_specialist c5ClientX "q" [] [] st0).1 = Except.ok ⟨"X", [], ""⟩
  ∧ (phase_3_specialist c5ClientY "q" [] [] st0).1 = Except.ok ⟨"Y", [], ""⟩ :=
  ⟨rfl, rfl⟩

/-- Claim C5, amended: phase_3_specialist performs no empty-candidate
check: invoked with an empty candidate list it still sends the request
to the Generation Client and returns the resulting decision (or the
propagated client error) with the state unchanged. -/
theorem c5_amended_no_empty_check
    (client : String → Except String SpecialistDecision) (q : String)
    (ctx : SessionContext) (s : RouterState) :
    phase_3_specialist client q [] ctx s = (client (mkPhase3Prompt ctx [] q), s) := rfl

/-- Claim C6, counterexample: phase_1_dispatcher returns the parsed model
response unchanged, so a schema-valid response with a single category
that is absent from the loaded taxonomy is returned as the
DispatcherDecision: neither the count of two nor taxonomy membership
holds. -/
theorem c6_counterexample :
    (phase_1_dispatcher cexClientC6 "q" st0).1 = Except.ok cexDecC6
  ∧ cexDecC6.categories = ["Zebra"]
  ∧ cexDecC6.categories.length ≠ 2
  ∧ "Zebra" ∉ taxonomy st0.category_summary :=
  ⟨rfl, rfl, by decide, by decide⟩

/-- Claim C6, amended: phase_1_dispatcher returns exactly the decision
parsed from the Generation Client response; the code checks neither
that the category list has length two nor that its members belong to
the known taxonomy. -/
theorem c6_amended_dispatcher_passthrough
    (client : String → Except String DispatcherDecision) (q : String) (s : RouterState) :
    (phase_1_dispatcher client q s).1 = client (mkPhase1Prompt s.category_summary q) := rfl

/-- Claim C7, counterexample: a schema-valid model response whose
selected_prompt_id is neither the sentinel NONE nor the id of any
passed candidate is returned unchanged by phase_3_specialist. -/
theorem c7_counterexample :
    (phase_3_specialist cexClientC7 "q" [stP1] [] st0).1 = Except.ok cexDecC7
  ∧ cexDecC7.selected_prompt_id ≠ "NONE"
  ∧ candidateIds [stP1] = ["P1"]
  ∧ cexDecC7.selected_prompt_id ∉ candidateIds [stP1] :=
  ⟨rfl, by decide, rfl, by decide⟩

/-- Claim C7, amended: the selected_prompt_id of every
SpecialistDecision returned by phase_3_specialist is exactly the
selected_prompt_id of the Generation Client response; membership in the
candidate ids (or equality with the sentinel) is instructed in the
prompt text but not enforced by code. -/
theorem c7_amended_selected_id_passthrough
    (client : String → Except String SpecialistDecision) (q : String)
    (cands : List PromptTemplate) (ctx : SessionContext) (s : RouterState) :
    ((phase_3_specialist client q cands ctx s).1).map SpecialistDecision.selected_prompt_id
      = (client (mkPhase3Prompt ctx cands q)).map SpecialistDecision.selected_prompt_id := rfl

/-- Claim C9: none of the four phase methods mutates the loaded prompt
corpus or category index, and no per-call state is retained on the
router: the router state after any phase call equals the state before
it.  (No method body in router.py assigns to any attribute of self.) -/
theorem c9_phases_preserve_state
    (client1 : String → Except String DispatcherDecision)
    (score : String → PromptTemplate → Nat)
    (client3 : String → Except String SpecialistDecision)
    (client4 : String → Except String String)
    (q : String) (cats : List String) (cands : List PromptTemplate)
    (ctx : SessionContext) (pid : String) (s : RouterState) :
    (phase_1_dispatcher client1 q s).2 = s
  ∧ (phase_2_search score q cats s).2 = s
  ∧ (phase_3_specialist client3 q cands ctx s).2 = s
  ∧ (phase_4_generator client4 pid ctx s).2 = s := by
  refine ⟨rfl, rfl, rfl, ?_⟩
  unfold phase_4_generator
  split <;> rfl

/-- Claim C3: for every query and category list, phase_2_search returns
at most 3 templates, every returned template belongs to one of the
requested categories, the result is ranked best-first by the relevance
score, and the result is empty when no stored template has a category
in the requested list. -/
theorem c3_phase2_contract (score : String → PromptTemplate → Nat)
    (q : String) (cats : List String) (s : RouterState) :
    ((phase_2_search score q cats s).1).length ≤ 3
  ∧ (∀ p ∈ (phase_2_search score q cats s).1, p.category ∈ cats)
  ∧ List.Pairwise (fun a b => score q b ≤ score q a) (phase_2_search score q cats s).1
  ∧ ((∀ p ∈ s.prompts, p.category ∉ cats) → (phase_2_search score q cats s).1 = []) := by
  unfold phase_2_search qdrantQuery
  refine ⟨?_, ?_, ?_, ?_⟩
  · simp [List.length_take_le]
  · intro p hp
    have hmem := List.mem_mergeSort.mp (List.mem_of_mem_take hp)
    have := (List.mem_filter.mp hmem).2
    exact of_decide_eq_true this
  · have hsorted :
        List.Pairwise (fun a b => decide (score q b ≤ score q a) = true)
          ((s.prompts.filter (fun p => decide (p.category ∈ cats))).mergeSort
            (fun a b => decide (score q b ≤ score q a))) := by
      apply List.sorted_mergeSort
      · intro a b c hab hbc
        have h1 := of_decide_eq_true hab
        have h2 := of_decide_eq_true hbc
        exact decide_eq_true (Nat.le_trans h2 h1)
      · intro a b
        rcases Nat.le_total (score q b) (score q a) with h | h
        · simp [h]
        · simp [h]
    have := hsorted.sublist (List.take_sublist 3 _)
    exact this.imp (fun h => of_decide_eq_true h)
  · intro h
    have hfil : s.prompts.filter (fun p => decide (p.category ∈ cats)) = [] := by
      rw [List.filter_eq_nil_iff]
      intro p hp
      simpa using h p hp
    simp [hfil]

/-- Claim C3, witness: with the concrete state st0, searching the stored
category returns at most 3 results, and searching a category that no
stored template carries returns the empty list. -/
theorem c3_witness :
    ((phase_2_search wScore "q" ["Cold Outreach"] st0).1).length ≤ 3
  ∧ (phase_2_search wScore "q" ["ZZZ"] st0).1 = [] :=
  ⟨(c3_phase2_contract wScore "q" ["Cold Outreach"] st0).1,
   (c3_phase2_contract wScore "q" ["ZZZ"] st0).2.2.2 (by decide)⟩

/-- Claim C4, counterexample: phase_4_generator on an unknown prompt id
does not fail: the phase-4 endpoint answers HTTP 200 with the literal
string Error: Could not find prompt in database. as the output payload
(the client used here errors if it is ever invoked, so no generation
call happened). -/
theorem c4_counterexample :
    api_phase_4 c4Client st0 c4Body = HttpResult.ok "Error: Could not find prompt in database."
  ∧ (api_phase_4 c4Client st0 c4Body).status = 200
  ∧ (api_phase_4 c4Client st0 c4Body).status ≠ 500 :=
  ⟨rfl, rfl, by decide⟩

/-- Claim C4, amended: for every prompt id matching no stored template
id, phase_4_generator issues no generation request (the result is the
same for every client) and returns the fixed error string as an
ordinary successful value, leaving the state unchanged. -/
theorem c4_amended_unknown_id (client : String → Except String String)
    (prompt_id : String) (ctx : SessionContext) (s : RouterState)
    (h : ∀ p ∈ s.prompts, p.id ≠ prompt_id) :
    phase_4_generator client prompt_id ctx s
      = (Except.ok "Error: Could not find prompt in database.", s) := by
  have hfind : s.prompts.find? (fun p => p.id == prompt_id) = none :=
    List.find?_eq_none.mpr (fun p hp => by simp [h p hp])
  simp [phase_4_generator, hfind]

/-- Claim C4, amended, witness: the unknown id GHOST against the state
st0 returns the fixed error string. -/
theorem c4_amended_witness :
    phase_4_generator c4Client "GHOST" [] st0
      = (Except.ok "Error: Could not find prompt in database.", st0) :=
  c4_amended_unknown_id c4Client "GHOST" [] st0 (by decide)

/-- Auxiliary: in a concatenation whose left part contains no match and
whose middle element matches, find? returns the middle element. -/
theorem find_first_of_split {α : Type} (pred : α → Bool) (l₁ l₂ : List α) (p : α)
    (h1 : ∀ x ∈ l₁, pred x = false) (h2 : pred p = true) :
    (l₁ ++ p :: l₂).find? pred = some p := by
  have h1n : l₁.find? pred = none :=
    List.find?_eq_none.mpr (fun x hx => by simp [h1 x hx])
  rw [List.find?_append, h1n]
  simp [List.find?_cons_of_pos, h2]

/-- Auxiliary: the only statuses an endpoint outcome can carry are 200,
422 and 500. -/
theorem httpResult_status_cases {α : Type} (r : HttpResult α) :
    r.status = 200 ∨ r.status = 422 ∨ r.status = 500 := by
  cases r <;> simp [HttpResult.status]

/-- Auxiliary: a value that parses as a PromptTemplate is a JSON
object. -/
theorem isObj_of_parse {j : Json} {p : PromptTemplate}
    (h : PromptTemplate.parse j = some p) : j.isObj = true := by
  cases j with
  | obj kvs => rfl
  | null => simp [PromptTemplate.parse, Json.getField?] at h
  | str s => simp [PromptTemplate.parse, Json.getField?] at h
  | arr xs => simp [PromptTemplate.parse, Json.getField?] at h

/-- Auxiliary: if a list of values parses elementwise as
PromptTemplates, every element is a JSON object. -/
theorem all_isObj_of_mapM_parse :
    ∀ (xs : List Json) (l : List PromptTemplate),
      xs.mapM PromptTemplate.parse = some l → xs.all Json.isObj = true := by
  intro xs
  induction xs with
  | nil => intro l _; rfl
  | cons x tl ih =>
      intro l h
      rw [List.mapM_cons] at h
      cases hx : PromptTemplate.parse x with
      | none => rw [hx] at h; simp at h
      | some y =>
          rw [hx] at h
          cases htl : tl.mapM PromptTemplate.parse with
          | none => rw [htl] at h; simp at h
          | some ys => simp [List.all_cons, isObj_of_parse hx, ih ys htl]

/-- Auxiliary: strict phase-3 parsing succeeds only on bodies that also
pass the declared pydantic validation, so a pydantic-invalid body is
rejected by the strict parser as well. -/
theorem pydanticValid_of_parse {body : Json} {req : Phase3Request}
    (h : Phase3Request.parse body = some req) :
    phase3BodyPydanticValid body = true := by
  cases hq : (body.getField? "query").bind Json.getStr? with
  | none => simp [Phase3Request.parse, hq] at h
  | some q =>
    cases ht : body.getField? "top3" with
    | none => simp [Phase3Request.parse, hq, ht] at h
    | some t3 =>
      cases t3 with
      | null => simp [Phase3Request.parse, hq, ht] at h
      | str s => simp [Phase3Request.parse, hq, ht] at h
      | obj kvs => simp [Phase3Request.parse, hq, ht] at h
      | arr xs =>
        cases hm : List.mapM.loop PromptTemplate.parse xs [] with
        | none => simp [Phase3Request.parse, hq, ht, hm] at h
        | some l =>
          cases hc : (body.getField? "context").bind Json.getStrMap? with
          | none => simp [Phase3Request.parse, hq, ht, hm, hc] at h
          | some ctx =>
            have hm' : xs.mapM PromptTemplate.parse = some l := hm
            simp [phase3BodyPydanticValid, hq, ht, hc,
              all_isObj_of_mapM_parse xs l hm']

/-- Claim C10: when the phase-3 body validates and the specialist client
answers with decision d, the prompt field of the 200 response is null
when d selects the sentinel NONE or when no supplied candidate has the
selected id, and otherwise equals the first candidate (in supplied
order) whose id equals the selected id. -/
theorem c10_phase3_prompt_field
    (client : String → Except String SpecialistDecision) (s : RouterState)
    (body : Json) (req : Phase3Request) (d : SpecialistDecision)
    (hparse : Phase3Request.parse body = some req)
    (hclient : client (mkPhase3Prompt req.context req.top3 req.query) = Except.ok d) :
    (d.selected_prompt_id = "NONE" →
      api_phase_3 client s body
        = HttpResult.ok ⟨d.selected_prompt_id, d.missing_variables, d.clarifying_question, none⟩)
  ∧ ((∀ p ∈ req.top3, p.id ≠ d.selected_prompt_id) →
      api_phase_3 client s body
        = HttpResult.ok ⟨d.selected_prompt_id, d.missing_variables, d.clarifying_question, none⟩)
  ∧ (∀ l₁ p l₂, req.top3 = l₁ ++ p :: l₂ →
      (∀ t ∈ l₁, t.id ≠ d.selected_prompt_id) →
      p.id = d.selected_prompt_id → d.selected_prompt_id ≠ "NONE" →
      api_phase_3 client s body
        = HttpResult.ok ⟨d.selected_prompt_id, d.missing_variables, d.clarifying_question, some p⟩) := by
  have hstep : api_phase_3 client s body
      = HttpResult.ok ⟨d.selected_prompt_id, d.missing_variables, d.clarifying_question,
          if d.selected_prompt_id ≠ "NONE" then
            req.top3.find? (fun p => p.id == d.selected_prompt_id)
          else none⟩ := by
    simp [api_phase_3, hparse, phase_3_specialist, hclient]
  refine ⟨?_, ?_, ?_⟩
  · intro h
    rw [hstep]
    simp [h]
  · intro hne
    rw [hstep]
    by_cases hs : d.selected_prompt_id = "NONE"
    · simp [hs]
    · have hfind : req.top3.find? (fun p => p.id == d.selected_prompt_id) = none :=
        List.find?_eq_none.mpr (fun p hp => by simp [hne p hp])
      simp [hs, hfind]
  · intro l₁ p l₂ htop hfirst hid hs
    rw [hstep, htop]
    have hfind : (l₁ ++ p :: l₂).find? (fun t => t.id == d.selected_prompt_id) = some p :=
      find_first_of_split _ l₁ l₂ p (fun t ht => by simp [hfirst t ht]) (by simp [hid])
    simp [hs, hfind]

/-- Claim C10, witness: with candidates P1 and P2 and a client selecting
P2, the phase-3 endpoint answers 200 and attaches the template P2
(the first and only candidate with that id). -/
theorem c10_witness :
    api_phase_3 c10Client st0 c10Body = HttpResult.ok ⟨"P2", [], "", some stP2⟩ := by
  have h := c10_phase3_prompt_field c10Client st0 c10Body
    ⟨"q", [stP1, stP2], []⟩ cexDecC10 rfl rfl
  exact h.2.2 [stP1] stP2 [] rfl (by decide) rfl (by decide)

/-- Claim C8, counterexample: a phase-1 call whose body (the empty JSON
object) fails request validation is answered by the framework with
status 422 — a client-error status, not 500 — so the claim that every
failing call, validation failures included, carries status 500 and that
no 4xx is ever returned fails. -/
theorem c8_counterexample :
    api_phase_1 c8FailClient1 st0 (Json.obj [])
      = HttpResult.validationError "Unprocessable Entity"
  ∧ (api_phase_1 c8FailClient1 st0 (Json.obj [])).status = 422
  ∧ (api_phase_1 c8FailClient1 st0 (Json.obj [])).status ≠ 500 :=
  ⟨rfl, rfl, by decide⟩

/-- Claim C8, amended: on each of the four endpoints, a body that fails
the validation the framework actually declares is rejected with HTTP
422 before the handler runs, and every failure raised inside a handler
— a failing Generation Client call on phases 1, 3 and 4, a failing
Retrieval Store query on phase 2 — is surfaced as HTTP 500 whose body
carries the error message; a validated phase-2 body whose store query
succeeds yields 200 with the documented result; 200, 422 and 500 are
the only possible statuses. -/
theorem c8_amended_error_statuses
    (client1 : String → Except String DispatcherDecision)
    (fail : String → List String → Option String)
    (score : String → PromptTemplate → Nat)
    (client3 : String → Except String SpecialistDecision)
    (client4 : String → Except String String)
    (s : RouterState) (body : Json) :
    (Phase1Request.parse body = none →
        api_phase_1 client1 s body = HttpResult.validationError "Unprocessable Entity")
  ∧ (∀ req e, Phase1Request.parse body = some req →
        client1 (mkPhase1Prompt s.category_summary req.query) = Except.error e →
        api_phase_1 client1 s body = HttpResult.serverError e)
  ∧ (Phase2Request.parse body = none →
        api_phase_2 fail score s body = HttpResult.validationError "Unprocessable Entity")
  ∧ (∀ req e, Phase2Request.parse body = some req →
        fail req.query req.categories = some e →
        api_phase_2 fail score s body = HttpResult.serverError e)
  ∧ (∀ req, Phase2Request.parse body = some req →
        fail req.query req.categories = none →
        api_phase_2 fail score s body
          = HttpResult.ok (phase_2_search score req.query req.categories s).1)
  ∧ (phase3BodyPydanticValid body = false →
        api_phase_3 client3 s body = HttpResult.validationError "Unprocessable Entity")
  ∧ (∀ req e, Phase3Request.parse body = some req →
        client3 (mkPhase3Prompt req.context req.top3 req.query) = Except.error e →
        api_phase_3 client3 s body = HttpResult.serverError e)
  ∧ (Phase4Request.parse body = none →
        api_phase_4 client4 s body = HttpResult.validationError "Unprocessable Entity")
  ∧ (∀ req target e, Phase4Request.parse body = some req →
        s.prompts.find? (fun p => p.id == req.promptId) = some target →
        client4 (mkPhase4Prompt target.metadata req.context target.template) = Except.error e →
        api_phase_4 client4 s body = HttpResult.serverError e)
  ∧ ((api_phase_1 client1 s body).status = 200 ∨ (api_phase_1 client1 s body).status = 422
        ∨ (api_phase_1 client1 s body).status = 500)
  ∧ ((api_phase_2 fail score s body).status = 200
        ∨ (api_phase_2 fail score s body).status = 422
        ∨ (api_phase_2 fail score s body).status = 500)
  ∧ ((api_phase_3 client3 s body).status = 200 ∨ (api_phase_3 client3 s body).status = 422
        ∨ (api_phase_3 client3 s body).status = 500)
  ∧ ((api_phase_4 client4 s body).status = 200 ∨ (api_phase_4 client4 s body).status = 422
        ∨ (api_phase_4 client4 s body).status = 500) := by
  refine ⟨?_, ?_, ?_, ?_, ?_, ?_, ?_, ?_, ?_, ?_, ?_, ?_, ?_⟩
  · intro h; simp [api_phase_1, h]
  · intro req e h hc; simp [api_phase_1, h, phase_1_dispatcher, hc]
  · intro h; simp [api_phase_2, h]
  · intro req e h hf; simp [api_phase_2, h, phase_2_search_run, hf]
  · intro req h hf; simp [api_phase_2, h, phase_2_search_run, hf]
  · intro h
    cases hp : Phase3Request.parse body with
    | none => simp [api_phase_3, hp]
    | some req => exact absurd (pydanticValid_of_parse hp) (by simp [h])
  · intro req e h hc; simp [api_phase_3, h, phase_3_specialist, hc]
  · intro h; simp [api_phase_4, h]
  · intro req target e h hfind hc; simp [api_phase_4, h, phase_4_generator, hfind, hc]
  · exact httpResult_status_cases _
  · exact httpResult_status_cases _
  · exact httpResult_status_cases _
  · exact httpResult_status_cases _

/-- Claim C8, amended, witness: each endpoint rejects the empty-object
body with 422; a failing Generation Client surfaces as a 500 carrying
the message on phases 1, 3 and 4; a validated phase-2 body surfaces a
raising store query as a 500 carrying the message, and yields the
documented 200 result when the store query succeeds. -/
theorem c8_amended_witness :
    api_phase_1 c8FailClient1 st0 (Json.obj []) = HttpResult.validationError "Unprocessable Entity"
  ∧ api_phase_1 c8FailClient1 st0 c8Phase1Body = HttpResult.serverError "boom1"
  ∧ api_phase_2 noFail wScore st0 (Json.obj []) = HttpResult.validationError "Unprocessable Entity"
  ∧ api_phase_2 storeDown wScore st0 c8Phase2Body = HttpResult.serverError "qdrant unavailable"
  ∧ api_phase_2 noFail wScore st0 c8Phase2Body
      = HttpResult.ok (phase_2_search wScore "q" ["Cold Outreach"] st0).1
  ∧ api_phase_3 c8FailClient3 st0 (Json.obj []) = HttpResult.validationError "Unprocessable Entity"
  ∧ api_phase_3 c8FailClient3 st0 c8Phase3Body = HttpResult.serverError "boom3"
  ∧ api_phase_4 c8FailClient4 st0 (Json.obj []) = HttpResult.validationError "Unprocessable Entity"
  ∧ api_phase_4 c8FailClient4 st0 c8Phase4Body = HttpResult.serverError "boom4" := by
  refine ⟨?_, ?_, ?_, ?_, ?_, ?_, ?_, ?_, ?_⟩
  · exact (c8_amended_error_statuses c8FailClient1 noFail wScore c8FailClient3 c8FailClient4
      st0 (Json.obj [])).1 rfl
  · exact (c8_amended_error_statuses c8FailClient1 noFail wScore c8FailClient3 c8FailClient4
      st0 c8Phase1Body).2.1 ⟨"q"⟩ "boom1" rfl rfl
  · exact (c8_amended_error_statuses c8FailClient1 noFail wScore c8FailClient3 c8FailClient4
      st0 (Json.obj [])).2.2.1 rfl
  · exact (c8_amended_error_statuses c8FailClient1 storeDown wScore c8FailClient3 c8FailClient4
      st0 c8Phase2Body).2.2.2.1 ⟨"q", ["Cold Outreach"]⟩ "qdrant unavailable" rfl rfl
  · exact (c8_amended_error_statuses c8FailClient1 noFail wScore c8FailClient3 c8FailClient4
      st0 c8Phase2Body).2.2.2.2.1 ⟨"q", ["Cold Outreach"]⟩ rfl rfl
  · exact (c8_amended_error_statuses c8FailClient1 noFail wScore c8FailClient3 c8FailClient4
      st0 (Json.obj [])).2.2.2.2.2.1 rfl
  · exact (c8_amended_error_statuses c8FailClient1 noFail wScore c8FailClient3 c8FailClient4
      st0 c8Phase3Body).2.2.2.2.2.2.1 ⟨"q", [stP1], []⟩ "boom3" rfl rfl
  · exact (c8_amended_error_statuses c8FailClient1 noFail wScore c8FailClient3 c8FailClient4
      st0 (Json.obj [])).2.2.2.2.2.2.2.1 rfl
  · exact (c8_amended_error_statuses c8FailClient1 noFail wScore c8FailClient3 c8FailClient4
      st0 c8Phase4Body).2.2.2.2.2.2.2.2.1 ⟨"P1", []⟩ stP1 "boom4" rfl rfl rfl

end MoltSales
